import Mathlib

/-!
Verification development for the AI Medical Scribe backend
(`backend/main.py`).  The Python code is shallowly embedded: JSON values
manipulated by the endpoint become the inductive `PyVal`, `json.loads`
becomes the executable parser `parseJson`, the two regex searches of
`extract_json_from_response` become `fencedBlock` and `braceSpan`, the
pydantic models become Lean structures with executable validators, the
Supabase client becomes explicit state passing over `Store` together with
a trace of `Event`s (one event per LLM call or row insert), and the
`/api/summarize` endpoint becomes `summarize_transcript`.
-/

/-- Some characters are bound to named constants so that the development
never spells them as literals. -/
def charOpenBrace : Char := Char.ofNat 123

def charCloseBrace : Char := Char.ofNat 125

def charBacktick : Char := Char.ofNat 96

def charSQuote : Char := Char.ofNat 39

def charDQuote : Char := Char.ofNat 34

def charBackslash : Char := Char.ofNat 92

def strOpenBrace : String := String.singleton charOpenBrace

def strCloseBrace : String := String.singleton charCloseBrace

/-- Model of a parsed Python/JSON value, as produced by `json.loads`.
Numbers keep their source lexeme (the claims never compute with them),
`null` maps to Python `None`. -/
inductive PyVal where
  | str (s : String)
  | num (lexeme : String)
  | bool (b : Bool)
  | null
  | list (xs : List PyVal)
  | dict (kvs : List (String × PyVal))

/-- Python `dict` lookup (`d.get(k)` / `d[k]`): first binding wins;
`dictSet` keeps at most one binding per key. -/
def dictGet (k : String) : List (String × PyVal) → Option PyVal
  | [] => none
  | (k', v) :: kvs => if k' = k then some v else dictGet k kvs

/-- Python `d[k] = v`: replace the value at an existing key in place,
otherwise append the new binding (insertion order is preserved). -/
def dictSet (k : String) (v : PyVal) : List (String × PyVal) → List (String × PyVal)
  | [] => [(k, v)]
  | (k', v') :: kvs => if k' = k then (k', v) :: kvs else (k', v') :: dictSet k v kvs

/-- Python `k in d`. -/
def hasKey (k : String) (kvs : List (String × PyVal)) : Bool :=
  (dictGet k kvs).isSome

/-- Whitespace characters recognised by the JSON grammar (`json.loads`). -/
def isJsonWs (c : Char) : Bool :=
  c = ' ' || c = '\t' || c = '\n' || c = '\r'

def skipJsonWs (cs : List Char) : List Char :=
  cs.dropWhile isJsonWs

/-- Whitespace stripped by Python `str.strip()` and matched by the regex
class in the code (ASCII fragment). -/
def isPyWs (c : Char) : Bool :=
  c = ' ' || c = '\t' || c = '\n' || c = '\r' || c = Char.ofNat 11 || c = Char.ofNat 12

/-- Python `str.strip()`. -/
def pyStrip (s : String) : String :=
  String.mk (((s.toList.dropWhile isPyWs).reverse.dropWhile isPyWs).reverse)

def hexVal (c : Char) : Option Nat :=
  if '0' ≤ c && c ≤ '9' then some (c.toNat - 48)
  else if 'a' ≤ c && c ≤ 'f' then some (c.toNat - 87)
  else if 'A' ≤ c && c ≤ 'F' then some (c.toNat - 70)
  else none

/-- Body of a JSON string literal, after the opening quote: returns the
decoded string and the remaining input.  Control characters are rejected
(`json.loads` default `strict=True`). -/
def strBodyGo : List Char → String → Option (String × List Char)
  | [], _ => none
  | c :: rest, acc =>
    if c = charDQuote then some (acc, rest)
    else if c = charBackslash then
      match rest with
      | [] => none
      | e :: r =>
        if e = charDQuote then strBodyGo r (acc.push charDQuote)
        else if e = charBackslash then strBodyGo r (acc.push charBackslash)
        else if e = '/' then strBodyGo r (acc.push '/')
        else if e = 'b' then strBodyGo r (acc.push (Char.ofNat 8))
        else if e = 'f' then strBodyGo r (acc.push (Char.ofNat 12))
        else if e = 'n' then strBodyGo r (acc.push '\n')
        else if e = 'r' then strBodyGo r (acc.push '\r')
        else if e = 't' then strBodyGo r (acc.push '\t')
        else if e = 'u' then
          match r with
          | h1 :: h2 :: h3 :: h4 :: r2 =>
            match hexVal h1, hexVal h2, hexVal h3, hexVal h4 with
            | some a, some b, some c3, some d =>
              strBodyGo r2 (acc.push (Char.ofNat (((a * 16 + b) * 16 + c3) * 16 + d)))
            | _, _, _, _ => none
          | _ => none
        else none
    else if c.toNat < 32 then none
    else strBodyGo rest (acc.push c)

def isDigit (c : Char) : Bool :=
  '0' ≤ c && c ≤ '9'

/-- JSON number token (grammar of `json.loads`, including the `Infinity`
constant after a minus sign); the lexeme is kept. -/
def parseNum (cs : List Char) : Option (PyVal × List Char) :=
  match cs with
  | '-' :: 'I' :: 'n' :: 'f' :: 'i' :: 'n' :: 'i' :: 't' :: 'y' :: rest =>
    some (.num "-inf", rest)
  | _ =>
    let (sign, cs1) := match cs with
      | '-' :: r => ("-", r)
      | _ => ("", cs)
    match cs1 with
    | [] => none
    | c :: _ =>
      if ¬ isDigit c then none
      else
        let (intPart, cs2) :=
          if c = '0' then ("0", cs1.drop 1)
          else (String.mk (cs1.takeWhile isDigit), cs1.dropWhile isDigit)
        let (fracPart, cs3) :=
          match cs2 with
          | '.' :: d :: _ =>
            if isDigit d then
              ("." ++ String.mk ((cs2.drop 1).takeWhile isDigit),
               (cs2.drop 1).dropWhile isDigit)
            else ("", cs2)
          | _ => ("", cs2)
        let (expPart, cs4) :=
          match cs3 with
          | 'e' :: '+' :: d :: _ =>
            if isDigit d then
              ("e+" ++ String.mk ((cs3.drop 2).takeWhile isDigit),
               (cs3.drop 2).dropWhile isDigit)
            else ("", cs3)
          | 'e' :: '-' :: d :: _ =>
            if isDigit d then
              ("e-" ++ String.mk ((cs3.drop 2).takeWhile isDigit),
               (cs3.drop 2).dropWhile isDigit)
            else ("", cs3)
          | 'e' :: d :: _ =>
            if isDigit d then
              ("e" ++ String.mk ((cs3.drop 1).takeWhile isDigit),
               (cs3.drop 1).dropWhile isDigit)
            else ("", cs3)
          | 'E' :: '+' :: d :: _ =>
            if isDigit d then
              ("E+" ++ String.mk ((cs3.drop 2).takeWhile isDigit),
               (cs3.drop 2).dropWhile isDigit)
            else ("", cs3)
          | 'E' :: '-' :: d :: _ =>
            if isDigit d then
              ("E-" ++ String.mk ((cs3.drop 2).takeWhile isDigit),
               (cs3.drop 2).dropWhile isDigit)
            else ("", cs3)
          | 'E' :: d :: _ =>
            if isDigit d then
              ("E" ++ String.mk ((cs3.drop 1).takeWhile isDigit),
               (cs3.drop 1).dropWhile isDigit)
            else ("", cs3)
          | _ => ("", cs3)
        some (.num (sign ++ intPart ++ fracPart ++ expPart), cs4)

mutual

/-- Recursive-descent JSON value parser (`json.loads` grammar).  The fuel
argument models the bounded recursion of the CPython scanner; every fuel
decrement is preceded by the consumption of at least one character, so
the initial fuel `length + 1` used by `parseJson` never runs out. -/
def parseVal : Nat → List Char → Option (PyVal × List Char)
  | 0, _ => none
  | Nat.succ fuel, cs =>
    match skipJsonWs cs with
    | [] => none
    | c :: rest =>
      if c = charOpenBrace then
        match skipJsonWs rest with
        | c2 :: rest2 =>
          if c2 = charCloseBrace then some (.dict [], rest2)
          else parseMembers fuel (c2 :: rest2) []
        | [] => none
      else if c = '[' then
        match skipJsonWs rest with
        | ']' :: rest2 => some (.list [], rest2)
        | rest2 => parseElems fuel rest2 []
      else if c = charDQuote then
        (strBodyGo rest "").map (fun p => (.str p.1, p.2))
      else
        match c :: rest with
        | 't' :: 'r' :: 'u' :: 'e' :: rest2 => some (.bool true, rest2)
        | 'f' :: 'a' :: 'l' :: 's' :: 'e' :: rest2 => some (.bool false, rest2)
        | 'n' :: 'u' :: 'l' :: 'l' :: rest2 => some (.null, rest2)
        | 'N' :: 'a' :: 'N' :: rest2 => some (.num "nan", rest2)
        | 'I' :: 'n' :: 'f' :: 'i' :: 'n' :: 'i' :: 't' :: 'y' :: rest2 =>
          some (.num "inf", rest2)
        | cs2 => parseNum cs2

/-- Members of a JSON object, positioned at a key (whitespace allowed);
duplicate keys follow Python `dict` semantics via `dictSet`. -/
def parseMembers : Nat → List Char → List (String × PyVal) →
    Option (PyVal × List Char)
  | 0, _, _ => none
  | Nat.succ fuel, cs, acc =>
    match skipJsonWs cs with
    | c :: rest =>
      if c = charDQuote then
        match strBodyGo rest "" with
        | none => none
        | some (k, r1) =>
          match skipJsonWs r1 with
          | ':' :: r2 =>
            match parseVal fuel r2 with
            | none => none
            | some (v, r3) =>
              let acc' := dictSet k v acc
              match skipJsonWs r3 with
              | ',' :: r4 => parseMembers fuel r4 acc'
              | c4 :: r4 =>
                if c4 = charCloseBrace then some (.dict acc', r4) else none
              | [] => none
          | _ => none
      else none
    | [] => none

/-- Elements of a JSON array, positioned at a value. -/
def parseElems : Nat → List Char → List PyVal → Option (PyVal × List Char)
  | 0, _, _ => none
  | Nat.succ fuel, cs, acc =>
    match parseVal fuel cs with
    | none => none
    | some (v, r1) =>
      match skipJsonWs r1 with
      | ',' :: r2 => parseElems fuel r2 (acc ++ [v])
      | ']' :: r2 => some (.list (acc ++ [v]), r2)
      | _ => none

end

/-- `json.loads`: a single JSON document, optionally surrounded by
whitespace.  `none` models `json.JSONDecodeError`. -/
def parseJson (text : String) : Option PyVal :=
  let cs := text.toList
  match parseVal (cs.length + 1) cs with
  | some (v, rest) => if skipJsonWs rest = [] then some v else none
  | none => none

/-- True when the list starts with three backticks. -/
def startsWithTicks (cs : List Char) : Bool :=
  match cs with
  | a :: b :: c :: _ => a = charBacktick && b = charBacktick && c = charBacktick
  | _ => false

/-- Scan for the next three-backtick fence, accumulating content. -/
def scanClose : List Char → List Char → Option (List Char)
  | [], _ => none
  | c :: rest, acc =>
    if startsWithTicks (c :: rest) then some acc.reverse
    else scanClose rest (c :: acc)

def stripTrailingReWs (cs : List Char) : List Char :=
  (cs.reverse.dropWhile isPyWs).reverse

/-- One attempted match of the fenced-block regex at an opening fence:
consume the three backticks, an optional literal `json` tag, greedy
whitespace, then the lazily matched group up to the next fence, with the
trailing whitespace of the group absorbed by the second greedy class. -/
def fenceHere (cs : List Char) : Option String :=
  let r1 := cs.drop 3
  let r2 := match r1 with
    | 'j' :: 's' :: 'o' :: 'n' :: rest => rest
    | _ => r1
  let r3 := r2.dropWhile isPyWs
  match scanClose r3 [] with
  | some content => some (String.mk (stripTrailingReWs content))
  | none => none

def fencedBlockGo : List Char → Option String
  | [] => none
  | c :: rest =>
    if startsWithTicks (c :: rest) then
      match fenceHere (c :: rest) with
      | some r => some r
      | none => fencedBlockGo rest
    else fencedBlockGo rest

/-- Leftmost match of `re.search` with the pattern of line 123 of
`main.py` (triple-backtick fence, optional `json` tag): returns the
captured group. -/
def fencedBlock (text : String) : Option String :=
  fencedBlockGo text.toList

/-- Leftmost-greedy match of the second regex of
`extract_json_from_response`: the span from the first opening brace to
the last closing brace of the text. -/
def braceSpan (text : String) : Option String :=
  let cs := text.toList.dropWhile (fun c => c ≠ charOpenBrace)
  let upto := (cs.reverse.dropWhile (fun c => c ≠ charCloseBrace)).reverse
  if upto.isEmpty then none else some (String.mk upto)

/-- Python exception classes that flow through `summarize_transcript`.
`valueErr` is `ValueError` (raised by `extract_json_from_response`),
`validationErr` is pydantic's `ValidationError` — a subclass of
`ValueError` — and `typeErr` is `TypeError` (raised when the extracted
value is not a dict and the code subscripts or unpacks it). -/
inductive Exc where
  | valueErr (msg : String)
  | validationErr
  | typeErr

/-- Whether an exception is caught by the clause
`except (json.JSONDecodeError, ValueError)` on line 755: pydantic's
`ValidationError` subclasses `ValueError`, so it is caught here, which
makes the later `except ValidationError` clause unreachable; `TypeError`
is not caught. -/
def caughtByValueClause : Exc → Bool
  | .valueErr _ => true
  | .validationErr => true
  | .typeErr => false

/-- Python `text[:500]`. -/
def truncate500 (s : String) : String :=
  String.mk (s.toList.take 500)

/-- `extract_json_from_response` (lines 116-137): try the whole text,
then the first fenced block, then the greedy brace span; otherwise raise
`ValueError` carrying the first 500 characters of the raw text. -/
def extract_json_from_response (text : String) : Except Exc PyVal :=
  match parseJson text with
  | some j => .ok j
  | none =>
    match (fencedBlock text).bind parseJson with
    | some j => .ok j
    | none =>
      match (braceSpan text).bind parseJson with
      | some j => .ok j
      | none =>
        .error (.valueErr
          ("Could not extract valid JSON from response: " ++ truncate500 text ++ "..."))

/-- Python `repr` of a string: quote choice and escaping as in CPython
(the delimiter is a double quote exactly when the string contains a
single quote and no double quote). -/
def pyReprStr (s : String) : String :=
  let hasSQ := s.toList.contains charSQuote
  let hasDQ := s.toList.contains charDQuote
  let q := if hasSQ && !hasDQ then charDQuote else charSQuote
  let body := s.toList.foldl (fun acc c =>
    if c = charBackslash then acc ++ "\\\\"
    else if c = q then acc ++ String.singleton charBackslash ++ String.singleton q
    else if c = '\n' then acc ++ "\\n"
    else if c = '\r' then acc ++ "\\r"
    else if c = '\t' then acc ++ "\\t"
    else acc.push c) ""
  String.singleton q ++ body ++ String.singleton q

mutual

/-- Python `str()` applied to a parsed JSON structure (used by the SOAP
field coercion on lines 682-689): the `repr`-style rendering of dicts
and lists, `True` / `False` / `None` for the scalar constants. -/
def pyRepr : PyVal → String
  | .str s => pyReprStr s
  | .num lexeme => lexeme
  | .bool b => if b then "True" else "False"
  | .null => "None"
  | .list xs => "[" ++ String.intercalate ", " (pyReprList xs) ++ "]"
  | .dict kvs => strOpenBrace ++ String.intercalate ", " (pyReprKVs kvs) ++ strCloseBrace

def pyReprList : List PyVal → List String
  | [] => []
  | v :: vs => pyRepr v :: pyReprList vs

def pyReprKVs : List (String × PyVal) → List String
  | [] => []
  | (k, v) :: kvs => (pyReprStr k ++ ": " ++ pyRepr v) :: pyReprKVs kvs

end

/-- `isinstance(v, (dict, list))`: the value is a nested structure. -/
def isNested : PyVal → Bool
  | .dict _ => true
  | .list _ => true
  | _ => false

/-- Request model `SummarizeRequest` of `main.py`. -/
structure SummarizeRequest where
  transcript : String
  note_type : String
  visit_type : String
  patient_name : String
  patient_id : String
  doctor_id : String
  conversation_id : Option String

/-- Pydantic model `Medication`. -/
structure Medication where
  name : String
  dose : String
  route : String
  frequency : String
  duration : String
  instructions : String

/-- Pydantic model `SOAPNote`. -/
structure SOAPNote where
  conversation_summary : String
  subjective : String
  objective : String
  assessment : String
  plan : String
  key_insights : String
  admin_tasks : List String

/-- Pydantic model `PrescriptionNote`. -/
structure PrescriptionNote where
  patient_name : String
  patient_id : String
  chief_complaint : String
  symptoms : List String
  diagnosis : String
  vital_signs : List (String × PyVal)
  medications : List Medication
  instructions : String
  warnings : List String
  follow_up : String

/-- A required pydantic `str` field: present and a string. -/
def reqStr (kvs : List (String × PyVal)) (k : String) : Option String :=
  match dictGet k kvs with
  | some (.str s) => some s
  | _ => none

/-- An optional pydantic `str` field with default `""`. -/
def optStr (kvs : List (String × PyVal)) (k : String) : Option String :=
  match dictGet k kvs with
  | none => some ""
  | some (.str s) => some s
  | some _ => none

def listOfStr : PyVal → Option (List String)
  | .list xs => xs.mapM (fun v => match v with | .str s => some s | _ => none)
  | _ => none

/-- An optional pydantic `list[str]` field with default `[]`. -/
def optStrList (kvs : List (String × PyVal)) (k : String) : Option (List String) :=
  match dictGet k kvs with
  | none => some []
  | some v => listOfStr v

/-- An optional pydantic `dict` field with default the empty dict. -/
def optDict (kvs : List (String × PyVal)) (k : String) :
    Option (List (String × PyVal)) :=
  match dictGet k kvs with
  | none => some []
  | some (.dict d) => some d
  | some _ => none

/-- Validation of one element of `medications` against the `Medication`
model: `name`, `dose`, `route`, `frequency`, `duration` are required
strings; `instructions` defaults to `""`. -/
def validateMedication : PyVal → Option Medication
  | .dict kvs => do
    let n ← reqStr kvs "name"
    let d ← reqStr kvs "dose"
    let r ← reqStr kvs "route"
    let f ← reqStr kvs "frequency"
    let du ← reqStr kvs "duration"
    let ins ← optStr kvs "instructions"
    pure ⟨n, d, r, f, du, ins⟩
  | _ => none

/-- `SOAPNote(**note_json)`: the six text fields are required strings,
`admin_tasks` defaults to `[]`; unknown keys are ignored (pydantic
default).  Failure models pydantic `ValidationError`. -/
def validateSOAP (kvs : List (String × PyVal)) : Except Exc SOAPNote :=
  match (do
    let cs ← reqStr kvs "conversation_summary"
    let su ← reqStr kvs "subjective"
    let ob ← reqStr kvs "objective"
    let asm ← reqStr kvs "assessment"
    let pl ← reqStr kvs "plan"
    let ki ← reqStr kvs "key_insights"
    let at_ ← optStrList kvs "admin_tasks"
    pure (⟨cs, su, ob, asm, pl, ki, at_⟩ : SOAPNote) : Option SOAPNote) with
  | some n => .ok n
  | none => .error .validationErr

/-- `PrescriptionNote(**note_json)`: `patient_name`, `patient_id` and
`medications` are required (the latter a list validating as
`Medication`s); all the remaining fields carry defaults. -/
def validatePrescription (kvs : List (String × PyVal)) :
    Except Exc PrescriptionNote :=
  match (do
    let pn ← reqStr kvs "patient_name"
    let pid ← reqStr kvs "patient_id"
    let cc ← optStr kvs "chief_complaint"
    let sy ← optStrList kvs "symptoms"
    let dg ← optStr kvs "diagnosis"
    let vs ← optDict kvs "vital_signs"
    let medsRaw ← dictGet "medications" kvs
    let meds ← match medsRaw with
      | .list xs => xs.mapM validateMedication
      | _ => none
    let ins ← optStr kvs "instructions"
    let wa ← optStrList kvs "warnings"
    let fu ← optStr kvs "follow_up"
    pure (⟨pn, pid, cc, sy, dg, vs, meds, ins, wa, fu⟩ : PrescriptionNote) :
      Option PrescriptionNote) with
  | some n => .ok n
  | none => .error .validationErr

/-- `model_dump()` of a `SOAPNote` (field declaration order). -/
def soapDump (n : SOAPNote) : List (String × PyVal) :=
  [("conversation_summary", .str n.conversation_summary),
   ("subjective", .str n.subjective),
   ("objective", .str n.objective),
   ("assessment", .str n.assessment),
   ("plan", .str n.plan),
   ("key_insights", .str n.key_insights),
   ("admin_tasks", .list (n.admin_tasks.map PyVal.str))]

/-- `model_dump()` of a `Medication`. -/
def medDump (m : Medication) : List (String × PyVal) :=
  [("name", .str m.name), ("dose", .str m.dose), ("route", .str m.route),
   ("frequency", .str m.frequency), ("duration", .str m.duration),
   ("instructions", .str m.instructions)]

/-- `model_dump()` of a `PrescriptionNote`. -/
def prescriptionDump (n : PrescriptionNote) : List (String × PyVal) :=
  [("patient_name", .str n.patient_name),
   ("patient_id", .str n.patient_id),
   ("chief_complaint", .str n.chief_complaint),
   ("symptoms", .list (n.symptoms.map PyVal.str)),
   ("diagnosis", .str n.diagnosis),
   ("vital_signs", .dict n.vital_signs),
   ("medications", .list (n.medications.map (fun m => .dict (medDump m)))),
   ("instructions", .str n.instructions),
   ("warnings", .list (n.warnings.map PyVal.str)),
   ("follow_up", .str n.follow_up)]

/-- One of the four SOAP field conversions of lines 682-689: when the
value at `k` is a dict or a list, replace it with its Python `str()`
rendering; otherwise (a string, another scalar, or an absent key) the
dict is returned unchanged. -/
def coerceField (k : String) (kvs : List (String × PyVal)) :
    List (String × PyVal) :=
  match dictGet k kvs with
  | some v => if isNested v then dictSet k (.str (pyRepr v)) kvs else kvs
  | none => kvs

/-- Backfill of line 674-679: set the key from the request when absent. -/
def backfill (k : String) (v : PyVal) (kvs : List (String × PyVal)) :
    List (String × PyVal) :=
  if hasKey k kvs then kvs else dictSet k v kvs

/-- The SOAP branch preprocessing of `summarize_transcript`
(lines 673-689): backfill `patient_id`, `doctor_id`, `visit_type` from
the request, then stringify nested `subjective`, `objective`,
`assessment`, `plan`, in source order. -/
def coerceSoap (req : SummarizeRequest) (kvs : List (String × PyVal)) :
    List (String × PyVal) :=
  coerceField "plan"
    (coerceField "assessment"
      (coerceField "objective"
        (coerceField "subjective"
          (backfill "visit_type" (.str req.visit_type)
            (backfill "doctor_id" (.str req.doctor_id)
              (backfill "patient_id" (.str req.patient_id) kvs))))))

/-- The prescription branch preprocessing (lines 716-717): the caller is
the source of truth for `patient_name` and `patient_id`, which are set
unconditionally. -/
def withPatientFields (req : SummarizeRequest) (kvs : List (String × PyVal)) :
    List (String × PyVal) :=
  dictSet "patient_id" (.str req.patient_id)
    (dictSet "patient_name" (.str req.patient_name) kvs)

/-- The field coercer as a function of the note type, mirroring the
`if request.note_type == "soap" ... else ...` split of the endpoint. -/
def coerceNote (note_type : String) (req : SummarizeRequest)
    (kvs : List (String × PyVal)) : List (String × PyVal) :=
  if note_type = "soap" then coerceSoap req kvs else withPatientFields req kvs

/-- HTTP error surfaced by `HTTPException(status_code, detail)`. -/
structure HTTPError where
  status : Nat
  detail : String

/-- State of the external relational store: only the id generator is
relevant (the store assigns an id to every inserted row). -/
structure Store where
  nextId : Nat

/-- The id string the store returns for the `n`-th inserted row. -/
def idVal (n : Nat) : PyVal :=
  .str ("rec-" ++ toString n)

/-- One observable side effect of the endpoint: an upstream LLM chat call
(`promptSuffix` is the text appended to the first user prompt — empty on
the first attempt, the stricter instruction on the retry — and the
temperature is recorded in hundredths, `10` for `0.1` and `5` for
`0.05`), or one row insert into a named table. -/
inductive Event where
  | llmCall (promptSuffix : String) (tempHundredths : Nat)
  | insert (tbl : String) (row : List (String × PyVal))

/-- `supabase.table(tbl).insert(row).execute()`: returns the generated
record id, advances the store, and records the insert in the trace. -/
def storeInsert (tbl : String) (row : List (String × PyVal)) (st : Store) :
    Nat × Store × Event :=
  (st.nextId, ⟨st.nextId + 1⟩, .insert tbl row)

/-- The instruction appended to the user prompt on the retry
(line 758). -/
def retryInstruction : String :=
  "\n\nIMPORTANT: Respond with valid JSON only."

/-- The `soap_notes` row of lines 695-707. -/
def soapRow (req : SummarizeRequest) (n : SOAPNote) : List (String × PyVal) :=
  [("patient_id", .str req.patient_id),
   ("doctor_id", .str req.doctor_id),
   ("conversation_id", match req.conversation_id with
     | some c => .str c
     | none => .null),
   ("visit_type", .str req.visit_type),
   ("conversation_summary", .str n.conversation_summary),
   ("subjective", .str n.subjective),
   ("objective", .str n.objective),
   ("assessment", .str n.assessment),
   ("plan", .str n.plan),
   ("key_insights", .str n.key_insights),
   ("admin_tasks", .list (n.admin_tasks.map PyVal.str))]

/-- The `prescriptions` row of lines 723-734. -/
def prescRow (req : SummarizeRequest) (n : PrescriptionNote) :
    List (String × PyVal) :=
  [("patient_id", .str req.patient_id),
   ("doctor_id", .str req.doctor_id),
   ("conversation_id", match req.conversation_id with
     | some c => .str c
     | none => .null),
   ("chief_complaint", .str n.chief_complaint),
   ("symptoms", .list (n.symptoms.map PyVal.str)),
   ("diagnosis", .str n.diagnosis),
   ("vital_signs", .dict n.vital_signs),
   ("instructions", .str n.instructions),
   ("warnings", .list (n.warnings.map PyVal.str)),
   ("follow_up", .str n.follow_up)]

/-- The `medications` row of lines 741-749, referencing the parent
prescription by the id the store returned for it. -/
def medRow (prescriptionId : Nat) (m : Medication) : List (String × PyVal) :=
  [("prescription_id", idVal prescriptionId),
   ("name", .str m.name),
   ("dose", .str m.dose),
   ("route", .str m.route),
   ("frequency", .str m.frequency),
   ("duration", .str m.duration),
   ("instructions", .str m.instructions)]

/-- The medication fan-out loop of lines 740-749: one insert per
medication, in list order, each referencing the parent id. -/
def insertMeds (prescriptionId : Nat) : List Medication → Store →
    Store × List Event
  | [], st => (st, [])
  | m :: ms, st =>
    let (_, st1, ev) := storeInsert "medications" (medRow prescriptionId m) st
    let (st2, evs) := insertMeds prescriptionId ms st1
    (st2, ev :: evs)

/-- The prescription persistence of lines 723-749: insert the parent
`prescriptions` row, obtain its generated id, then insert the medication
rows.  Returns the parent id, the advanced store, and the insert trace in
issue order. -/
def persistPrescription (req : SummarizeRequest) (n : PrescriptionNote)
    (st : Store) : Nat × Store × List Event :=
  let (pid, st1, ev1) := storeInsert "prescriptions" (prescRow req n) st
  let (st2, evs) := insertMeds pid n.medications st1
  (pid, st2, ev1 :: evs)

/-- The validated result of one generation attempt. -/
inductive ValidatedNote where
  | soap (n : SOAPNote)
  | presc (n : PrescriptionNote)

/-- The first generation attempt on a raw LLM response
(lines 666-720): extract the JSON, then per note type coerce — for
prescriptions the patient-field overwrite of lines 716-717 — and
validate.  A non-dict extraction result makes the subsequent
subscripting / keyword expansion raise `TypeError`. -/
def genNote (req : SummarizeRequest) (response : String) :
    Except Exc ValidatedNote :=
  match extract_json_from_response response with
  | .error e => .error e
  | .ok j =>
    if req.note_type = "soap" then
      match j with
      | .dict kvs =>
        match validateSOAP (coerceSoap req kvs) with
        | .ok n => .ok (.soap n)
        | .error e => .error e
      | _ => .error .typeErr
    else
      match j with
      | .dict kvs =>
        match validatePrescription (withPatientFields req kvs) with
        | .ok n => .ok (.presc n)
        | .error e => .error e
      | _ => .error .typeErr

/-- The retry generation attempt (lines 764-789).  The SOAP branch
(lines 766-785) repeats the backfill and coercion of the first attempt,
but the prescription branch (lines 787-789) validates the extracted
object directly — it omits the patient-field overwrite of
lines 716-717, so a retry response missing `patient_name` or
`patient_id` fails validation here even though it would have passed the
first attempt. -/
def genNoteRetry (req : SummarizeRequest) (response : String) :
    Except Exc ValidatedNote :=
  match extract_json_from_response response with
  | .error e => .error e
  | .ok j =>
    if req.note_type = "soap" then
      match j with
      | .dict kvs =>
        match validateSOAP (coerceSoap req kvs) with
        | .ok n => .ok (.soap n)
        | .error e => .error e
      | _ => .error .typeErr
    else
      match j with
      | .dict kvs =>
        match validatePrescription kvs with
        | .ok n => .ok (.presc n)
        | .error e => .error e
      | _ => .error .typeErr

/-- The `/api/summarize` endpoint `summarize_transcript`
(lines 502-802), with the LLM collaborator abstracted as the oracle
`llm` mapping the call index to the raw response text.  Returns the HTTP
outcome, the final store, and the trace of upstream calls and inserts in
order.  The first successful attempt persists the validated note and
merges the generated id; a retry success (lines 764-789) returns the
bare `model_dump()` without persisting.  Exceptions reaching the clause
of line 755 trigger the single retry exactly when
`caughtByValueClause`. -/
def summarize_transcript (req : SummarizeRequest) (llm : Nat → String)
    (st : Store) : Except HTTPError PyVal × Store × List Event :=
  if pyStrip req.transcript = "" then
    (.error ⟨400, "Transcript cannot be empty"⟩, st, [])
  else if ¬ (req.note_type = "soap" ∨ req.note_type = "prescription") then
    (.error ⟨400, "Note type must be \x27soap\x27 or \x27prescription\x27"⟩, st, [])
  else if ¬ (req.visit_type = "new" ∨ req.visit_type = "followup" ∨
      req.visit_type = "repeat") then
    (.error ⟨400,
      "Visit type must be \x27new\x27, \x27followup\x27, or \x27repeat\x27"⟩, st, [])
  else
    let ev1 : Event := .llmCall "" 10
    match genNote req (llm 0) with
    | .ok (.soap n) =>
      let (noteId, st1, ev) := storeInsert "soap_notes" (soapRow req n) st
      (.ok (.dict (soapDump n ++ [("id", idVal noteId), ("note_type", .str "soap")])),
       st1, [ev1, ev])
    | .ok (.presc n) =>
      let (pid, st1, evs) := persistPrescription req n st
      (.ok (.dict (prescriptionDump n ++
         [("id", idVal pid), ("note_type", .str "prescription")])),
       st1, ev1 :: evs)
    | .error e =>
      if caughtByValueClause e then
        let ev2 : Event := .llmCall retryInstruction 5
        match genNoteRetry req (llm 1) with
        | .ok (.soap n) => (.ok (.dict (soapDump n)), st, [ev1, ev2])
        | .ok (.presc n) => (.ok (.dict (prescriptionDump n)), st, [ev1, ev2])
        | .error _ =>
          (.error ⟨500, "AI failed to generate valid note. Please try again."⟩,
           st, [ev1, ev2])
      else
        (.error ⟨500, "Internal server error during note generation"⟩, st, [ev1])

/-- Observable effects of the `/api/transcribe` endpoint. -/
inductive TEvent where
  | whisperCall
  | insertConversation

def MAX_FILE_SIZE : Nat := 25 * 1024 * 1024

def allowed_types : List String :=
  ["audio/webm", "audio/mp4", "audio/mpeg", "audio/wav", "audio/x-wav",
   "audio/ogg", "video/webm"]

/-- Input of the `/api/transcribe` endpoint: the uploaded byte count, the
declared MIME type, and the optional form ids. -/
structure TranscribeInput where
  size : Nat
  contentType : String
  patient_id : Option String
  doctor_id : Option String

/-- The `/api/transcribe` endpoint `transcribe_audio` (lines 406-497),
with the Whisper collaborator abstracted as the oracle `rawTranscript`
(the joined segment texts before `strip()`).  Size and MIME type are
checked before any transcription work; the conversation insert is
best-effort and only attempted when both ids are present. -/
def transcribe_upload (inp : TranscribeInput) (rawTranscript : String) :
    Except HTTPError PyVal × List TEvent :=
  if MAX_FILE_SIZE < inp.size then
    (.error ⟨413, "Audio file too large. Maximum size is 25MB."⟩, [])
  else if ¬ allowed_types.contains inp.contentType then
    (.error ⟨400, "Unsupported audio format: " ++ inp.contentType⟩, [])
  else
    let t := pyStrip rawTranscript
    if t = "" then
      (.error ⟨400, "No speech detected in audio file."⟩, [.whisperCall])
    else
      match inp.patient_id, inp.doctor_id with
      | some _, some _ =>
        (.ok (.dict [("transcript", .str t), ("status", .str "success")]),
         [.whisperCall, .insertConversation])
      | _, _ =>
        (.ok (.dict [("transcript", .str t), ("status", .str "success")]),
         [.whisperCall])

/-- The LLM-call events of a trace. -/
def llmCalls (tr : List Event) : List Event :=
  tr.filter (fun e => match e with | .llmCall _ _ => true | _ => false)

def llmCallCount (tr : List Event) : Nat :=
  (llmCalls tr).length

/-- The insert events of a trace. -/
def insertEvents (tr : List Event) : List Event :=
  tr.filter (fun e => match e with | .insert _ _ => true | _ => false)

/-- A first attempt that fails with an exception caught by the
`except (json.JSONDecodeError, ValueError)` clause, i.e. one that sends
the endpoint into the retry path. -/
def retryableFailure (req : SummarizeRequest) (response : String) : Bool :=
  match genNote req response with
  | .error e => caughtByValueClause e
  | .ok _ => false

/-- Concrete store used by witnesses. -/
def stZero : Store := ⟨0⟩

def reqSoap : SummarizeRequest :=
  ⟨"patient says hi", "soap", "new", "Jane Doe", "p1", "d1", none⟩

def reqPresc : SummarizeRequest :=
  ⟨"take amoxicillin", "prescription", "new", "Jane Doe", "p1", "d1", none⟩

def reqBlankTranscript : SummarizeRequest :=
  ⟨"   ", "soap", "new", "Jane Doe", "p1", "d1", none⟩

def objA : PyVal := .dict [("a", .num "1")]

def objAText : String := "\x7b\"a\":1\x7d"

/-- A raw model output containing a single well-formed JSON object
embedded in prose, where the prose carries a stray opening brace before
the object. -/
def proseText : String := "see \x7b here " ++ objAText

def soapJsonText : String :=
  "\x7b\"conversation_summary\":\"s\",\"subjective\":\"a\",\"objective\":\"b\",\"assessment\":\"c\",\"plan\":\"d\",\"key_insights\":\"e\"\x7d"

def soapNoteRetry : SOAPNote := ⟨"s", "a", "b", "c", "d", "e", []⟩

/-- LLM double whose first response has no JSON and whose second is a
valid SOAP note. -/
def llmFailThenSoap : Nat → String :=
  fun n => if n = 0 then "no json here" else soapJsonText

/-- LLM double failing extraction on every call. -/
def llmNoJson : Nat → String := fun _ => "no json at all"

/-- LLM double answering an empty JSON object on every call. -/
def llmEmptyObject : Nat → String := fun _ => objAText

def nestedObjective : PyVal := .dict [("bp", .str "120/80")]

def kvsNestedObjective : List (String × PyVal) := [("objective", nestedObjective)]

theorem dictGet_dictSet_same (k : String) (v : PyVal)
    (kvs : List (String × PyVal)) : dictGet k (dictSet k v kvs) = some v := by
  induction kvs with
  | nil => simp [dictGet, dictSet]
  | cons p kvs ih =>
    obtain ⟨k', v'⟩ := p
    by_cases h : k' = k
    · subst h; simp [dictGet, dictSet]
    · simp [dictGet, dictSet, h, ih]

theorem dictGet_dictSet_ne (k k' : String) (v : PyVal)
    (kvs : List (String × PyVal)) (h : k' ≠ k) :
    dictGet k (dictSet k' v kvs) = dictGet k kvs := by
  induction kvs with
  | nil => simp [dictGet, dictSet, h]
  | cons p kvs ih =>
    obtain ⟨k'', v''⟩ := p
    by_cases h2 : k'' = k'
    · subst h2; simp [dictGet, dictSet, h]
    · by_cases h3 : k'' = k
      · subst h3; simp [dictGet, dictSet, h2]
      · simp [dictGet, dictSet, h2, h3, ih]

theorem dictSet_get_same (k : String) (v : PyVal)
    (kvs : List (String × PyVal)) (h : dictGet k kvs = some v) :
    dictSet k v kvs = kvs := by
  induction kvs with
  | nil => simp [dictGet] at h
  | cons p kvs ih =>
    obtain ⟨k', v'⟩ := p
    by_cases h2 : k' = k
    · subst h2
      simp [dictGet] at h
      simp [dictSet, h]
    · simp [dictGet, h2] at h
      simp [dictSet, h2, ih h]

theorem dictGet_backfill_ne (k k' : String) (v : PyVal)
    (kvs : List (String × PyVal)) (h : k' ≠ k) :
    dictGet k (backfill k' v kvs) = dictGet k kvs := by
  unfold backfill
  by_cases h2 : hasKey k' kvs
  · simp [h2]
  · simp [h2, dictGet_dictSet_ne _ _ _ _ h]

theorem hasKey_backfill_self (k : String) (v : PyVal)
    (kvs : List (String × PyVal)) : hasKey k (backfill k v kvs) = true := by
  unfold backfill
  by_cases h : hasKey k kvs
  · simp [h, hasKey] at *
    simp [hasKey, h]
  · have h' : (dictGet k kvs).isSome = false := by
      simpa [hasKey] using h
    simp [hasKey, h', dictGet_dictSet_same]

theorem backfill_no_op (k : String) (v : PyVal) (kvs : List (String × PyVal))
    (h : hasKey k kvs = true) : backfill k v kvs = kvs := by
  simp [backfill, h]

theorem dictGet_coerceField_ne (k k' : String) (kvs : List (String × PyVal))
    (h : k' ≠ k) : dictGet k (coerceField k' kvs) = dictGet k kvs := by
  unfold coerceField
  cases h2 : dictGet k' kvs with
  | none => rfl
  | some v =>
    by_cases h3 : isNested v
    · simp [h3, dictGet_dictSet_ne _ _ _ _ h]
    · simp [h3]

theorem dictGet_coerceField_self (k : String) (kvs : List (String × PyVal)) :
    dictGet k (coerceField k kvs) =
      match dictGet k kvs with
      | some v => some (if isNested v then .str (pyRepr v) else v)
      | none => none := by
  unfold coerceField
  cases h2 : dictGet k kvs with
  | none => exact h2
  | some v =>
    by_cases h3 : isNested v
    · simp [h3, dictGet_dictSet_same]
    · simp only [h3, if_neg]
      simpa [h3] using h2

theorem coerceField_no_op (k : String) (kvs : List (String × PyVal))
    (h : ∀ v, dictGet k kvs = some v → isNested v = false) :
    coerceField k kvs = kvs := by
  unfold coerceField
  cases h2 : dictGet k kvs with
  | none => rfl
  | some v => simp [h v h2]

/-- The value `coerceSoap` leaves at one of the four coerced fields: the
`str()` rendering when the original value was nested, the original value
otherwise. -/
theorem coerceSoap_field (req : SummarizeRequest) (kvs : List (String × PyVal))
    (f : String)
    (hf : f = "subjective" ∨ f = "objective" ∨ f = "assessment" ∨ f = "plan") :
    dictGet f (coerceSoap req kvs) =
      match dictGet f kvs with
      | some v => some (if isNested v then .str (pyRepr v) else v)
      | none => none := by
  have hb : dictGet f (backfill "visit_type" (.str req.visit_type)
      (backfill "doctor_id" (.str req.doctor_id)
        (backfill "patient_id" (.str req.patient_id) kvs))) = dictGet f kvs := by
    rcases hf with rfl | rfl | rfl | rfl <;>
      rw [dictGet_backfill_ne _ _ _ _ (by decide),
        dictGet_backfill_ne _ _ _ _ (by decide),
        dictGet_backfill_ne _ _ _ _ (by decide)]
  unfold coerceSoap
  rcases hf with rfl | rfl | rfl | rfl
  · rw [dictGet_coerceField_ne _ _ _ (by decide),
      dictGet_coerceField_ne _ _ _ (by decide),
      dictGet_coerceField_ne _ _ _ (by decide),
      dictGet_coerceField_self, hb]
  · rw [dictGet_coerceField_ne _ _ _ (by decide),
      dictGet_coerceField_ne _ _ _ (by decide),
      dictGet_coerceField_self,
      dictGet_coerceField_ne _ _ _ (by decide), hb]
  · rw [dictGet_coerceField_ne _ _ _ (by decide),
      dictGet_coerceField_self,
      dictGet_coerceField_ne _ _ _ (by decide),
      dictGet_coerceField_ne _ _ _ (by decide), hb]
  · rw [dictGet_coerceField_self,
      dictGet_coerceField_ne _ _ _ (by decide),
      dictGet_coerceField_ne _ _ _ (by decide),
      dictGet_coerceField_ne _ _ _ (by decide), hb]

/-- C4 (counterexample): the claim fails as stated.  `proseText` contains
the single well-formed JSON object `objA` embedded in surrounding prose,
but because the prose carries a stray opening brace before the object,
the greedy first-brace-to-last-brace span does not parse and
`extract_json_from_response` raises instead of returning the object. -/
theorem c4_prose_counterexample :
    parseJson objAText = some objA ∧
    proseText = "see \x7b here " ++ objAText ∧
    extract_json_from_response proseText =
      .error (.valueErr
        ("Could not extract valid JSON from response: " ++
          truncate500 proseText ++ "...")) :=
  ⟨rfl, rfl, rfl⟩

/-- C4 (amended): `extract_json_from_response` attempts the three parses
in the fixed order — the whole text first, then the first fenced code
block, then the greedy span from the first opening brace to the last
closing brace — and returns the object of the first parse that succeeds;
an object embedded in prose is therefore returned exactly when the
earlier attempts fail and that greedy span parses as JSON. -/
theorem c4_ordered_fallback (s : String) (j : PyVal) :
    (parseJson s = some j → extract_json_from_response s = .ok j) ∧
    (parseJson s = none → (fencedBlock s).bind parseJson = some j →
      extract_json_from_response s = .ok j) ∧
    (parseJson s = none → (fencedBlock s).bind parseJson = none →
      (braceSpan s).bind parseJson = some j →
      extract_json_from_response s = .ok j) := by
  refine ⟨?_, ?_, ?_⟩
  · intro h
    simp [extract_json_from_response, h]
  · intro h1 h2
    simp [extract_json_from_response, h1, h2]
  · intro h1 h2 h3
    simp [extract_json_from_response, h1, h2, h3]

/-- C4 (witness): a concrete object embedded in prose whose greedy brace
span is exactly the object is extracted through the third attempt. -/
theorem c4_ordered_fallback_witness :
    extract_json_from_response ("x " ++ objAText) = .ok objA :=
  (c4_ordered_fallback ("x " ++ objAText) objA).2.2 rfl rfl rfl

/-- C5: when no attempt yields JSON the extractor fails with the
`ValueError` carrying the first 500 characters of the raw text, and on
every input it either returns a value or raises exactly that error —
never an unrelated exception. -/
theorem c5_extraction_error_total (s : String) :
    (parseJson s = none → (fencedBlock s).bind parseJson = none →
      (braceSpan s).bind parseJson = none →
      extract_json_from_response s =
        .error (.valueErr
          ("Could not extract valid JSON from response: " ++
            truncate500 s ++ "..."))) ∧
    ((∃ j, extract_json_from_response s = .ok j) ∨
      extract_json_from_response s =
        .error (.valueErr
          ("Could not extract valid JSON from response: " ++
            truncate500 s ++ "..."))) := by
  constructor
  · intro h1 h2 h3
    simp [extract_json_from_response, h1, h2, h3]
  · rcases hp : parseJson s with _ | j
    · rcases hf : (fencedBlock s).bind parseJson with _ | j
      · rcases hb : (braceSpan s).bind parseJson with _ | j
        · right
          simp [extract_json_from_response, hp, hf, hb]
        · left
          exact ⟨j, by simp [extract_json_from_response, hp, hf, hb]⟩
      · left
        exact ⟨j, by simp [extract_json_from_response, hp, hf]⟩
    · left
      exact ⟨j, by simp [extract_json_from_response, hp]⟩

/-- C5 (witness): a concrete input with no JSON anywhere fails with the
truncated-prefix `ValueError`. -/
theorem c5_extraction_error_total_witness :
    extract_json_from_response "hello" =
      .error (.valueErr
        ("Could not extract valid JSON from response: " ++
          truncate500 "hello" ++ "...")) :=
  (c5_extraction_error_total "hello").1 rfl rfl rfl

/-- C6: on a raw SOAP object, each of `subjective`, `objective`,
`assessment`, `plan` whose value is a nested structure is replaced by its
deterministic `str()` rendering, and is left unchanged when its value is
already a scalar string. -/
theorem c6_soap_field_coercion (req : SummarizeRequest)
    (kvs : List (String × PyVal)) :
    ∀ f ∈ ["subjective", "objective", "assessment", "plan"],
      (∀ v, dictGet f kvs = some v → isNested v = true →
        dictGet f (coerceSoap req kvs) = some (.str (pyRepr v))) ∧
      (∀ s, dictGet f kvs = some (.str s) →
        dictGet f (coerceSoap req kvs) = some (.str s)) := by
  intro f hf
  have hf' : f = "subjective" ∨ f = "objective" ∨ f = "assessment" ∨
      f = "plan" := by simpa using hf
  constructor
  · intro v hv hn
    rw [coerceSoap_field req kvs f hf', hv]
    simp [hn]
  · intro s hs
    rw [coerceSoap_field req kvs f hf', hs]
    simp [isNested]

/-- C6 (witness): a nested `objective` is rendered to its `str()` text by
the coercion of a concrete SOAP draft. -/
theorem c6_soap_field_coercion_witness :
    dictGet "objective" (coerceSoap reqSoap kvsNestedObjective) =
      some (.str (pyRepr nestedObjective)) :=
  (c6_soap_field_coercion reqSoap kvsNestedObjective "objective"
    (by decide)).1 nestedObjective rfl rfl

/-- C7: the field coercer is idempotent for both note types (and total by
construction): applying it twice yields the same dict as applying it
once. -/
theorem c7_coerce_idempotent (nt : String) (req : SummarizeRequest)
    (kvs : List (String × PyVal)) :
    coerceNote nt req (coerceNote nt req kvs) = coerceNote nt req kvs := by
  by_cases hnt : nt = "soap"
  · simp only [coerceNote, hnt, if_pos]
    have hfield : ∀ f, (f = "subjective" ∨ f = "objective" ∨
        f = "assessment" ∨ f = "plan") →
        ∀ v, dictGet f (coerceSoap req kvs) = some v → isNested v = false := by
      intro f hf v hv
      rw [coerceSoap_field req kvs f hf] at hv
      cases h0 : dictGet f kvs with
      | none => rw [h0] at hv; cases hv
      | some v0 =>
        rw [h0] at hv
        by_cases hn : isNested v0
        · simp [hn] at hv
          cases hv
          rfl
        · simp [hn] at hv
          cases hv
          simpa using hn
    have hkey : ∀ k, (k = "patient_id" ∨ k = "doctor_id" ∨ k = "visit_type") →
        hasKey k (coerceSoap req kvs) = true := by
      intro k hk
      have h1 : dictGet k (coerceSoap req kvs) =
          dictGet k (backfill "visit_type" (.str req.visit_type)
            (backfill "doctor_id" (.str req.doctor_id)
              (backfill "patient_id" (.str req.patient_id) kvs))) := by
        unfold coerceSoap
        rcases hk with rfl | rfl | rfl <;>
          rw [dictGet_coerceField_ne _ _ _ (by decide),
            dictGet_coerceField_ne _ _ _ (by decide),
            dictGet_coerceField_ne _ _ _ (by decide),
            dictGet_coerceField_ne _ _ _ (by decide)]
      rcases hk with rfl | rfl | rfl
      · have h2 : dictGet "patient_id" (coerceSoap req kvs) =
            dictGet "patient_id"
              (backfill "patient_id" (.str req.patient_id) kvs) := by
          rw [h1, dictGet_backfill_ne _ _ _ _ (by decide),
            dictGet_backfill_ne _ _ _ _ (by decide)]
        have h3 := hasKey_backfill_self "patient_id" (.str req.patient_id) kvs
        simp only [hasKey] at h3 ⊢
        rw [h2]
        exact h3
      · have h2 : dictGet "doctor_id" (coerceSoap req kvs) =
            dictGet "doctor_id" (backfill "doctor_id" (.str req.doctor_id)
              (backfill "patient_id" (.str req.patient_id) kvs)) := by
          rw [h1, dictGet_backfill_ne _ _ _ _ (by decide)]
        have h3 := hasKey_backfill_self "doctor_id" (.str req.doctor_id)
          (backfill "patient_id" (.str req.patient_id) kvs)
        simp only [hasKey] at h3 ⊢
        rw [h2]
        exact h3
      · have h3 := hasKey_backfill_self "visit_type" (.str req.visit_type)
          (backfill "doctor_id" (.str req.doctor_id)
            (backfill "patient_id" (.str req.patient_id) kvs))
        simp only [hasKey] at h3 ⊢
        rw [h1]
        exact h3
    conv_lhs => rw [coerceSoap]
    rw [backfill_no_op _ _ _ (hkey "patient_id" (by simp)),
      backfill_no_op _ _ _ (hkey "doctor_id" (by simp)),
      backfill_no_op _ _ _ (hkey "visit_type" (by simp)),
      coerceField_no_op _ _ (hfield "subjective" (by simp)),
      coerceField_no_op _ _ (hfield "objective" (by simp)),
      coerceField_no_op _ _ (hfield "assessment" (by simp)),
      coerceField_no_op _ _ (hfield "plan" (by simp))]
  · simp only [coerceNote, hnt, if_neg, if_false]
    unfold withPatientFields
    have h1 : dictGet "patient_name"
        (dictSet "patient_id" (.str req.patient_id)
          (dictSet "patient_name" (.str req.patient_name) kvs)) =
        some (.str req.patient_name) := by
      rw [dictGet_dictSet_ne _ _ _ _ (by decide), dictGet_dictSet_same]
    rw [dictSet_get_same _ _ _ h1, dictSet_get_same _ _ _ (dictGet_dictSet_same _ _ _)]

theorem insertMeds_trace (pid : Nat) :
    ∀ (ms : List Medication) (st : Store),
      (insertMeds pid ms st).2 =
        ms.map (fun m => Event.insert "medications" (medRow pid m)) := by
  intro ms
  induction ms with
  | nil => intro st; rfl
  | cons m ms ih => intro st; simp [insertMeds, storeInsert, ih]

theorem llmCalls_nil : llmCalls [] = [] := rfl

theorem llmCalls_cons_insert (t : String) (row : List (String × PyVal))
    (tr : List Event) : llmCalls (Event.insert t row :: tr) = llmCalls tr := by
  simp [llmCalls, List.filter]

theorem llmCalls_cons_call (a : String) (b : Nat) (tr : List Event) :
    llmCalls (Event.llmCall a b :: tr) = Event.llmCall a b :: llmCalls tr := by
  simp [llmCalls, List.filter]

theorem llmCalls_map_inserts (t : String) (f : Medication → List (String × PyVal))
    (ms : List Medication) :
    llmCalls (ms.map (fun m => Event.insert t (f m))) = [] := by
  induction ms with
  | nil => rfl
  | cons m ms ih => simpa [llmCalls_cons_insert] using ih

/-- C8: for a validated prescription with `N` medications, persistence
issues exactly `1 + N` inserts, the parent `prescriptions` insert comes
first and yields the id, and every medication insert references exactly
that id. -/
theorem c8_prescription_fanout (req : SummarizeRequest) (n : PrescriptionNote)
    (st : Store) :
    (persistPrescription req n st).2.2 =
      Event.insert "prescriptions" (prescRow req n) ::
        n.medications.map (fun m =>
          Event.insert "medications" (medRow (persistPrescription req n st).1 m)) ∧
    (persistPrescription req n st).2.2.length = 1 + n.medications.length ∧
    ∀ m, dictGet "prescription_id" (medRow (persistPrescription req n st).1 m) =
      some (idVal (persistPrescription req n st).1) := by
  refine ⟨?_, ?_, ?_⟩
  · simp [persistPrescription, storeInsert, insertMeds_trace]
  · simp [persistPrescription, storeInsert, insertMeds_trace, Nat.add_comm]
  · intro m
    simp [medRow, dictGet]

/-- When the first generation attempt fails with an exception caught by
the `except (json.JSONDecodeError, ValueError)` clause, the endpoint
performs exactly the two LLM calls: the original one and the retry with
the appended stricter instruction at temperature `0.05`. -/
theorem retry_trace_of_caught (req : SummarizeRequest) (llm : Nat → String)
    (st : Store) (h1 : pyStrip req.transcript ≠ "")
    (h2 : req.note_type = "soap" ∨ req.note_type = "prescription")
    (h3 : req.visit_type = "new" ∨ req.visit_type = "followup" ∨
      req.visit_type = "repeat")
    (e : Exc) (hg : genNote req (llm 0) = .error e)
    (hc : caughtByValueClause e = true) :
    llmCalls (summarize_transcript req llm st).2.2 =
      [Event.llmCall "" 10, Event.llmCall retryInstruction 5] := by
  unfold summarize_transcript
  rw [if_neg h1, if_neg (not_not_intro h2), if_neg (not_not_intro h3), hg]
  dsimp only
  rw [if_pos hc]
  cases hg2 : genNoteRetry req (llm 1) with
  | ok v =>
    cases v <;>
      simp [llmCalls_cons_call, llmCalls_cons_insert, llmCalls_nil]
  | error e2 =>
    simp [llmCalls_cons_call, llmCalls_cons_insert, llmCalls_nil]

/-- C2: under valid input the generator never makes a third LLM call, and
whenever the first attempt fails with a retryable (caught) exception it
makes exactly one further call carrying the appended stricter
instruction at temperature `0.05`; the retry then fully decides the
outcome — success gives a `200` note, a second failure gives the
terminal `500`. -/
theorem c2_retry_budget (req : SummarizeRequest) (llm : Nat → String)
    (st : Store) (h1 : pyStrip req.transcript ≠ "")
    (h2 : req.note_type = "soap" ∨ req.note_type = "prescription")
    (h3 : req.visit_type = "new" ∨ req.visit_type = "followup" ∨
      req.visit_type = "repeat") :
    llmCallCount (summarize_transcript req llm st).2.2 ≤ 2 ∧
    (retryableFailure req (llm 0) = true →
      llmCalls (summarize_transcript req llm st).2.2 =
        [Event.llmCall "" 10, Event.llmCall retryInstruction 5] ∧
      (∀ v, genNoteRetry req (llm 1) = .ok v →
        ∃ r, (summarize_transcript req llm st).1 = .ok r) ∧
      (∀ e, genNoteRetry req (llm 1) = .error e →
        (summarize_transcript req llm st).1 =
          .error ⟨500, "AI failed to generate valid note. Please try again."⟩)) := by
  unfold summarize_transcript
  rw [if_neg h1, if_neg (not_not_intro h2), if_neg (not_not_intro h3)]
  cases hg : genNote req (llm 0) with
  | ok v =>
    have hrf : retryableFailure req (llm 0) = false := by
      simp [retryableFailure, hg]
    refine ⟨?_, ?_⟩
    · cases v <;>
        simp [llmCallCount, storeInsert, persistPrescription, insertMeds_trace,
          llmCalls_cons_call, llmCalls_cons_insert, llmCalls_nil,
          llmCalls_map_inserts]
    · intro hcontra
      rw [hrf] at hcontra
      exact Bool.noConfusion hcontra
  | error e =>
    have hrf : retryableFailure req (llm 0) = caughtByValueClause e := by
      simp [retryableFailure, hg]
    by_cases hc : caughtByValueClause e = true
    · dsimp only
      rw [if_pos hc]
      cases hg2 : genNoteRetry req (llm 1) with
      | ok v =>
        refine ⟨?_, fun _ => ⟨?_, ?_, ?_⟩⟩
        · cases v <;>
            simp [llmCallCount, llmCalls_cons_call, llmCalls_cons_insert,
              llmCalls_nil]
        · cases v <;>
            simp [llmCalls_cons_call, llmCalls_cons_insert, llmCalls_nil]
        · intro v' hv'
          cases v <;> exact ⟨_, rfl⟩
        · intro e' he'
          exact Except.noConfusion he'
      | error e2 =>
        refine ⟨?_, fun _ => ⟨?_, ?_, ?_⟩⟩
        · simp [llmCallCount, llmCalls_cons_call, llmCalls_cons_insert,
            llmCalls_nil]
        · simp [llmCalls_cons_call, llmCalls_cons_insert, llmCalls_nil]
        · intro v' hv'
          exact Except.noConfusion hv'
        · intro e' _
          rfl
    · have hc' : caughtByValueClause e = false := by
        cases h : caughtByValueClause e
        · rfl
        · exact absurd h hc
      dsimp only
      rw [if_neg (by simp [hc'])]
      refine ⟨?_, ?_⟩
      · simp [llmCallCount, llmCalls_cons_call, llmCalls_nil]
      · intro hcontra
        rw [hrf, hc'] at hcontra
        exact Bool.noConfusion hcontra

/-- C2 (witness): an LLM double failing extraction on both calls drives
exactly the two upstream calls, the second with the stricter appended
instruction at temperature `0.05`. -/
theorem c2_retry_budget_witness :
    llmCalls (summarize_transcript reqSoap llmNoJson stZero).2.2 =
      [Event.llmCall "" 10, Event.llmCall retryInstruction 5] :=
  ((c2_retry_budget reqSoap llmNoJson stZero (by decide) (Or.inl rfl)
    (Or.inl rfl)).2 rfl).1

/-- C3: a first-attempt response whose extracted JSON fails schema
validation (a pydantic `ValidationError`, subclass of `ValueError`)
sends the endpoint into the retry path — the trace shows the second LLM
call — rather than failing immediately. -/
theorem c3_schema_failure_retries (req : SummarizeRequest) (llm : Nat → String)
    (st : Store) (h1 : pyStrip req.transcript ≠ "")
    (h2 : req.note_type = "soap" ∨ req.note_type = "prescription")
    (h3 : req.visit_type = "new" ∨ req.visit_type = "followup" ∨
      req.visit_type = "repeat")
    (hfail : genNote req (llm 0) = .error .validationErr) :
    llmCalls (summarize_transcript req llm st).2.2 =
      [Event.llmCall "" 10, Event.llmCall retryInstruction 5] :=
  retry_trace_of_caught req llm st h1 h2 h3 .validationErr hfail rfl

/-- C3 (witness): a first response extracting to a JSON object that lacks
the required SOAP fields triggers the retry call. -/
theorem c3_schema_failure_retries_witness :
    llmCalls (summarize_transcript reqSoap llmEmptyObject stZero).2.2 =
      [Event.llmCall "" 10, Event.llmCall retryInstruction 5] :=
  c3_schema_failure_retries reqSoap llmEmptyObject stZero (by decide)
    (Or.inl rfl) (Or.inl rfl) rfl

/-- C9: invalid input is rejected with the matching 400/413 error before
any upstream call — an empty (or whitespace-only) transcript or an
unrecognised note type on `/api/summarize`, and an oversized payload or
unsupported MIME type on `/api/transcribe` — and no retry happens (the
effect trace is empty). -/
theorem c9_input_validation :
    (∀ (req : SummarizeRequest) (llm : Nat → String) (st : Store),
      pyStrip req.transcript = "" →
      summarize_transcript req llm st =
        (.error ⟨400, "Transcript cannot be empty"⟩, st, [])) ∧
    (∀ (req : SummarizeRequest) (llm : Nat → String) (st : Store),
      pyStrip req.transcript ≠ "" →
      ¬(req.note_type = "soap" ∨ req.note_type = "prescription") →
      summarize_transcript req llm st =
        (.error ⟨400, "Note type must be \x27soap\x27 or \x27prescription\x27"⟩,
         st, [])) ∧
    (∀ (inp : TranscribeInput) (t : String), MAX_FILE_SIZE < inp.size →
      transcribe_upload inp t =
        (.error ⟨413, "Audio file too large. Maximum size is 25MB."⟩, [])) ∧
    (∀ (inp : TranscribeInput) (t : String), inp.size ≤ MAX_FILE_SIZE →
      ¬ allowed_types.contains inp.contentType →
      transcribe_upload inp t =
        (.error ⟨400, "Unsupported audio format: " ++ inp.contentType⟩, [])) := by
  refine ⟨?_, ?_, ?_, ?_⟩
  · intro req llm st h
    unfold summarize_transcript
    rw [if_pos h]
  · intro req llm st h hnt
    unfold summarize_transcript
    rw [if_neg h, if_pos hnt]
  · intro inp t h
    unfold transcribe_upload
    rw [if_pos h]
  · intro inp t hle hct
    unfold transcribe_upload
    rw [if_neg (Nat.not_lt.mpr hle), if_pos hct]

/-- C9 (witness): a whitespace-only transcript is rejected with the 400
before any LLM call. -/
theorem c9_input_validation_witness :
    summarize_transcript reqBlankTranscript llmNoJson stZero =
      (.error ⟨400, "Transcript cannot be empty"⟩, stZero, []) :=
  c9_input_validation.1 reqBlankTranscript llmNoJson stZero rfl

theorem dictGet_withPatient_other (req : SummarizeRequest)
    (kvs : List (String × PyVal)) (k : String)
    (h1 : k ≠ "patient_name") (h2 : k ≠ "patient_id") :
    dictGet k (withPatientFields req kvs) = dictGet k kvs := by
  unfold withPatientFields
  rw [dictGet_dictSet_ne _ _ _ _ (Ne.symm h2), dictGet_dictSet_ne _ _ _ _ (Ne.symm h1)]

set_option maxHeartbeats 2000000 in
/-- An extracted prescription object without the `medications` key fails
pydantic validation: it is the only model-supplied field with no
default. -/
theorem validatePrescription_no_medications (kvs : List (String × PyVal))
    (h : dictGet "medications" kvs = none) :
    validatePrescription kvs = .error .validationErr := by
  unfold validatePrescription
  cases h1 : reqStr kvs "patient_name" with
  | none => simp [h1]
  | some pn =>
    cases h2 : reqStr kvs "patient_id" with
    | none => simp [h1, h2]
    | some pid =>
      cases h3 : optStr kvs "chief_complaint" with
      | none => simp [h1, h2, h3]
      | some cc =>
        cases h4 : optStrList kvs "symptoms" with
        | none => simp [h1, h2, h3, h4]
        | some sy =>
          cases h5 : optStr kvs "diagnosis" with
          | none => simp [h1, h2, h3, h4, h5]
          | some dg =>
            cases h6 : optDict kvs "vital_signs" with
            | none => simp [h1, h2, h3, h4, h5, h6]
            | some vs => simp [h1, h2, h3, h4, h5, h6, h]

set_option maxHeartbeats 2000000 in
/-- With a valid `medications` list and the seven defaulted keys absent,
validation succeeds and fills in the empty defaults. -/
theorem validatePrescription_defaults (req : SummarizeRequest)
    (kvs : List (String × PyVal)) (ms : List PyVal) (meds : List Medication)
    (hm : dictGet "medications" kvs = some (.list ms))
    (hvm : ms.mapM validateMedication = some meds)
    (h1 : dictGet "chief_complaint" kvs = none)
    (h2 : dictGet "symptoms" kvs = none)
    (h3 : dictGet "diagnosis" kvs = none)
    (h4 : dictGet "vital_signs" kvs = none)
    (h5 : dictGet "instructions" kvs = none)
    (h6 : dictGet "warnings" kvs = none)
    (h7 : dictGet "follow_up" kvs = none) :
    validatePrescription (withPatientFields req kvs) =
      .ok ⟨req.patient_name, req.patient_id, "", [], "", [], meds, "", [], ""⟩ := by
  have w : ∀ k, k ≠ "patient_name" → k ≠ "patient_id" →
      dictGet k (withPatientFields req kvs) = dictGet k kvs :=
    fun k hk1 hk2 => dictGet_withPatient_other req kvs k hk1 hk2
  have g1 : reqStr (withPatientFields req kvs) "patient_name" =
      some req.patient_name := by
    unfold reqStr withPatientFields
    rw [dictGet_dictSet_ne _ _ _ _ (by decide), dictGet_dictSet_same]
  have g2 : reqStr (withPatientFields req kvs) "patient_id" =
      some req.patient_id := by
    unfold reqStr withPatientFields
    rw [dictGet_dictSet_same]
  have g3 : optStr (withPatientFields req kvs) "chief_complaint" = some "" := by
    unfold optStr
    rw [w _ (by decide) (by decide), h1]
  have g4 : optStrList (withPatientFields req kvs) "symptoms" = some [] := by
    unfold optStrList
    rw [w _ (by decide) (by decide), h2]
  have g5 : optStr (withPatientFields req kvs) "diagnosis" = some "" := by
    unfold optStr
    rw [w _ (by decide) (by decide), h3]
  have g6 : optDict (withPatientFields req kvs) "vital_signs" = some [] := by
    unfold optDict
    rw [w _ (by decide) (by decide), h4]
  have g7 : dictGet "medications" (withPatientFields req kvs) =
      some (.list ms) := by
    rw [w _ (by decide) (by decide), hm]
  have g8 : optStr (withPatientFields req kvs) "instructions" = some "" := by
    unfold optStr
    rw [w _ (by decide) (by decide), h5]
  have g9 : optStrList (withPatientFields req kvs) "warnings" = some [] := by
    unfold optStrList
    rw [w _ (by decide) (by decide), h6]
  have g10 : optStr (withPatientFields req kvs) "follow_up" = some "" := by
    unfold optStr
    rw [w _ (by decide) (by decide), h7]
  have hvm' : List.mapM.loop validateMedication ms [] = some meds := by
    simpa [List.mapM] using hvm
  unfold validatePrescription
  simp [g1, g2, g3, g4, g5, g6, g7, g8, g9, g10, hvm, hvm']

/-- C10: for prescription generation, an extracted object lacking the
`medications` key fails schema validation and consumes the retry, while
absence of any of the seven defaulted fields does not fail validation —
they silently default to their empty values in both the persisted row
and the returned note. -/
theorem c10_prescription_required_fields :
    (∀ (req : SummarizeRequest) (llm : Nat → String) (st : Store)
      (kvs : List (String × PyVal)),
      pyStrip req.transcript ≠ "" →
      req.note_type = "prescription" →
      (req.visit_type = "new" ∨ req.visit_type = "followup" ∨
        req.visit_type = "repeat") →
      extract_json_from_response (llm 0) = .ok (.dict kvs) →
      dictGet "medications" kvs = none →
      llmCalls (summarize_transcript req llm st).2.2 =
        [Event.llmCall "" 10, Event.llmCall retryInstruction 5]) ∧
    (∀ (req : SummarizeRequest) (llm : Nat → String) (st : Store)
      (kvs : List (String × PyVal)) (ms : List PyVal) (meds : List Medication),
      pyStrip req.transcript ≠ "" →
      req.note_type = "prescription" →
      (req.visit_type = "new" ∨ req.visit_type = "followup" ∨
        req.visit_type = "repeat") →
      extract_json_from_response (llm 0) = .ok (.dict kvs) →
      dictGet "medications" kvs = some (.list ms) →
      ms.mapM validateMedication = some meds →
      dictGet "chief_complaint" kvs = none →
      dictGet "symptoms" kvs = none →
      dictGet "diagnosis" kvs = none →
      dictGet "vital_signs" kvs = none →
      dictGet "instructions" kvs = none →
      dictGet "warnings" kvs = none →
      dictGet "follow_up" kvs = none →
      validatePrescription (withPatientFields req kvs) =
        .ok ⟨req.patient_name, req.patient_id, "", [], "", [], meds, "", [], ""⟩ ∧
      (summarize_transcript req llm st).1 =
        .ok (.dict (prescriptionDump
          ⟨req.patient_name, req.patient_id, "", [], "", [], meds, "", [], ""⟩ ++
          [("id", idVal st.nextId), ("note_type", .str "prescription")])) ∧
      (summarize_transcript req llm st).2.2 =
        Event.llmCall "" 10 ::
          Event.insert "prescriptions" (prescRow req
            ⟨req.patient_name, req.patient_id, "", [], "", [], meds, "", [], ""⟩) ::
          meds.map (fun m => Event.insert "medications" (medRow st.nextId m))) := by
  constructor
  · intro req llm st kvs h1 h2 h3 hx hm
    have hm' : dictGet "medications" (withPatientFields req kvs) = none := by
      rw [dictGet_withPatient_other req kvs _ (by decide) (by decide)]
      exact hm
    have hgen : genNote req (llm 0) = .error .validationErr := by
      unfold genNote
      rw [hx]
      dsimp only
      rw [if_neg (by rw [h2]; decide)]
      rw [validatePrescription_no_medications _ hm']
    exact retry_trace_of_caught req llm st h1 (Or.inr h2) h3 .validationErr hgen rfl
  · intro req llm st kvs ms meds h1 h2 h3 hx hm hvm g1 g2 g3 g4 g5 g6 g7
    have hval := validatePrescription_defaults req kvs ms meds hm hvm
      g1 g2 g3 g4 g5 g6 g7
    have hgen : genNote req (llm 0) =
        .ok (.presc ⟨req.patient_name, req.patient_id, "", [], "", [], meds,
          "", [], ""⟩) := by
      unfold genNote
      rw [hx]
      dsimp only
      rw [if_neg (by rw [h2]; decide)]
      rw [hval]
    refine ⟨hval, ?_, ?_⟩
    · unfold summarize_transcript
      rw [if_neg h1, if_neg (not_not_intro (Or.inr h2)),
        if_neg (not_not_intro h3), hgen]
      simp [persistPrescription, storeInsert]
    · unfold summarize_transcript
      rw [if_neg h1, if_neg (not_not_intro (Or.inr h2)),
        if_neg (not_not_intro h3), hgen]
      simp [persistPrescription, storeInsert, insertMeds_trace]

/-- C10 (witness): a concrete prescription response without
`medications` consumes the retry. -/
theorem c10_prescription_required_fields_witness :
    llmCalls (summarize_transcript reqPresc llmEmptyObject stZero).2.2 =
      [Event.llmCall "" 10, Event.llmCall retryInstruction 5] :=
  c10_prescription_required_fields.1 reqPresc llmEmptyObject stZero
    [("a", .num "1")] (by decide) rfl (Or.inl rfl) rfl rfl

/-- C1 (code bug): a summarize run whose first LLM response has no JSON
and whose retry response is a fully valid SOAP note reaches the terminal
success state, yet the endpoint returns the note without issuing any
store insert and without an `id` key — the retry-success path of
lines 764-789 skips persistence, contradicting both the endpoint
docstring and the specified persist-on-`Done` behaviour. -/
theorem c1_retry_success_skips_persistence :
    (summarize_transcript reqSoap llmFailThenSoap stZero).1 =
      .ok (.dict (soapDump soapNoteRetry)) ∧
    dictGet "id" (soapDump soapNoteRetry) = none ∧
    dictGet "note_type" (soapDump soapNoteRetry) = none ∧
    insertEvents (summarize_transcript reqSoap llmFailThenSoap stZero).2.2 = [] ∧
    llmCallCount (summarize_transcript reqSoap llmFailThenSoap stZero).2.2 = 2 :=
  ⟨rfl, rfl, rfl, rfl, rfl⟩
